import Mathlib

/-!
Shallow embedding of the `flight_display` background synchronization core
(`flight_cache.py`, `updater.py`, `utils.py`, `models.py`), together with
theorems checking the design document's statements against it.

Conventions of the embedding:
* Python `float` timestamps (`time.time()`) are modelled as rationals `ℚ`;
  every cache operation that reads the clock takes the current time `now`
  explicitly.
* Python's `dict` is modelled as an association list; reachable states have
  pairwise-distinct keys, which theorems assume where a count depends on it.
* Stateful methods become explicit state-passing functions returning a pair
  of result and updated state.
* Geographic coordinates and distances (`float` in the source) are modelled
  as real numbers `ℝ`.
-/

namespace FlightDisplay

/-- From `flight_cache.py`, `CachedFlightDetails`: cached details for a
flight.  `cached_at` is the insertion timestamp. -/
structure CachedFlightDetails where
  flight_id : String
  aircraft_type : String
  airline : String
  origin : String
  destination : String
  registration : String
  cached_at : ℚ
deriving DecidableEq, Repr

/-- From `CachedFlightDetails.is_expired`: true when the entry's age
strictly exceeds the time-to-live. -/
def CachedFlightDetails.is_expired (e : CachedFlightDetails) (ttl_seconds : ℚ) (now : ℚ) : Bool :=
  now - e.cached_at > ttl_seconds

/-- From `flight_cache.py`, `FlightCache.__init__`: the cache state is the
backing dictionary plus the TTL and the hit/miss counters. -/
structure FlightCache where
  entries : List (String × CachedFlightDetails)
  ttl_seconds : ℚ
  hits : ℕ
  misses : ℕ
deriving DecidableEq, Repr

/-- Plain dictionary lookup `self._cache.get(flight_id)` (no statistics,
no expiry handling). -/
def FlightCache.lookupRaw (c : FlightCache) (flight_id : String) : Option CachedFlightDetails :=
  (c.entries.find? (fun p => p.1 == flight_id)).map (·.2)

/-- From `FlightCache.get`: returns the entry if present and unexpired
(counting a hit); on an expired entry deletes it and counts a miss; on a
missing entry counts a miss. -/
def FlightCache.get (c : FlightCache) (now : ℚ) (flight_id : String) :
    Option CachedFlightDetails × FlightCache :=
  match c.lookupRaw flight_id with
  | none => (none, { c with misses := c.misses + 1 })
  | some entry =>
    if entry.is_expired c.ttl_seconds now then
      (none, { c with
                 entries := c.entries.filter (fun p => p.1 != flight_id)
                 misses := c.misses + 1 })
    else
      (some entry, { c with hits := c.hits + 1 })

/-- From `FlightCache.put`: unconditionally overwrites the entry for
`flight_id`, stamping the current time. -/
def FlightCache.put (c : FlightCache) (now : ℚ) (flight_id : String)
    (aircraft_type airline origin destination registration : String) : FlightCache :=
  { c with entries :=
      (flight_id,
        { flight_id := flight_id, aircraft_type := aircraft_type, airline := airline,
          origin := origin, destination := destination, registration := registration,
          cached_at := now }) :: c.entries.filter (fun p => p.1 != flight_id) }

/-- One iteration of the `get_missing_ids` loop: `get` the candidate
(threading the cache state) and append it to the accumulator when absent. -/
def FlightCache.missingStep (now : ℚ) (acc : List String × FlightCache) (fid : String) :
    List String × FlightCache :=
  let r := acc.2.get now fid
  match r.1 with
  | none => (acc.1 ++ [fid], r.2)
  | some _ => (acc.1, r.2)

/-- From `FlightCache.get_missing_ids`: collects the ids for which `get`
reports absent, threading the cache state (statistics and lazy evictions)
through the successive `get` calls.  The Python iterates a set; the model
iterates a list of its elements. -/
def FlightCache.get_missing_ids (c : FlightCache) (now : ℚ) (flight_ids : List String) :
    List String × FlightCache :=
  flight_ids.foldl (FlightCache.missingStep now) ([], c)

/-- From `FlightCache.cleanup_expired`: removes every expired entry,
returning how many were removed. -/
def FlightCache.cleanup_expired (c : FlightCache) (now : ℚ) : ℕ × FlightCache :=
  let expired := c.entries.filter (fun p => p.2.is_expired c.ttl_seconds now)
  (expired.length,
   { c with entries := c.entries.filter (fun p => !(p.2.is_expired c.ttl_seconds now)) })

/-- From `FlightCache.cleanup_departed`: removes every entry whose key is
absent from `current_flight_ids`, returning how many were removed. -/
def FlightCache.cleanup_departed (c : FlightCache) (current_flight_ids : List String) :
    ℕ × FlightCache :=
  let departed := c.entries.filter (fun p => !(current_flight_ids.contains p.1))
  (departed.length,
   { c with entries := c.entries.filter (fun p => current_flight_ids.contains p.1) })

/-- From the `FlightCache.size` property: number of entries. -/
def FlightCache.size (c : FlightCache) : ℕ :=
  c.entries.length

/-- The value of the `FlightCache.stats` property.  The source formats
`hit_rate` as a percentage string; the model keeps the exact rational
percentage. -/
structure CacheStats where
  size : ℕ
  hits : ℕ
  misses : ℕ
  hit_rate : ℚ
deriving DecidableEq, Repr

/-- From the `FlightCache.stats` property: reports size and the hit/miss
counters; the hit rate is `hits / (hits + misses) * 100`, taken to be `0`
when no lookup has happened yet. -/
def FlightCache.stats (c : FlightCache) : CacheStats :=
  let total := c.hits + c.misses
  { size := c.size, hits := c.hits, misses := c.misses,
    hit_rate := if total > 0 then (c.hits : ℚ) / (total : ℚ) * 100 else 0 }

/-- From `FlightCache.clear`: removes everything and resets the counters. -/
def FlightCache.clear (c : FlightCache) : FlightCache :=
  { c with entries := [], hits := 0, misses := 0 }

/-- Python's `math.radians`: degrees to radians. -/
noncomputable def radians (x : ℝ) : ℝ :=
  x * Real.pi / 180

/-- Python's `math.atan2 y x`: the angle of the point `(x, y)`, by the
usual case split on the quadrant. -/
noncomputable def atan2 (y x : ℝ) : ℝ :=
  if 0 < x then Real.arctan (y / x)
  else if x < 0 ∧ 0 ≤ y then Real.arctan (y / x) + Real.pi
  else if x < 0 ∧ y < 0 then Real.arctan (y / x) - Real.pi
  else if x = 0 ∧ 0 < y then Real.pi / 2
  else if x = 0 ∧ y < 0 then -(Real.pi / 2)
  else 0

/-- Python's built-in `round` (ties to even) on an exact real value. -/
noncomputable def roundHalfEven (x : ℝ) : ℤ :=
  if Int.fract x = 1 / 2 then (if ⌊x⌋ % 2 = 0 then ⌊x⌋ else ⌊x⌋ + 1)
  else round x

/-- Python's `round(x, 1)`: round to one decimal place, ties to even. -/
noncomputable def round1 (x : ℝ) : ℝ :=
  (roundHalfEven (x * 10) : ℝ) / 10

/-- From `utils.py`, `haversine_distance`: great-circle distance in
kilometres between two points given in degrees, rounded to one decimal
place. -/
noncomputable def haversine_distance (lat1 lon1 lat2 lon2 : ℝ) : ℝ :=
  let R : ℝ := 6371.0
  let lat1_rad := radians lat1
  let lon1_rad := radians lon1
  let lat2_rad := radians lat2
  let lon2_rad := radians lon2
  let dlat := lat2_rad - lat1_rad
  let dlon := lon2_rad - lon1_rad
  let a := Real.sin (dlat / 2) ^ 2 +
    Real.cos lat1_rad * Real.cos lat2_rad * Real.sin (dlon / 2) ^ 2
  let c := 2 * atan2 (Real.sqrt a) (Real.sqrt (1 - a))
  round1 (R * c)

/-- Modelled from the spec: the "reference haversine computation" of the
testable-properties section, i.e. the textbook haversine great-circle
formula `2 R arcsin (sqrt a)` with Earth radius 6371.0 km, inputs in
degrees converted to radians, without any rounding. -/
noncomputable def referenceHaversine (lat1 lon1 lat2 lon2 : ℝ) : ℝ :=
  let lat1_rad := radians lat1
  let lat2_rad := radians lat2
  let a := Real.sin ((lat2_rad - lat1_rad) / 2) ^ 2 +
    Real.cos lat1_rad * Real.cos lat2_rad * Real.sin ((radians lon2 - radians lon1) / 2) ^ 2
  2 * 6371.0 * Real.arcsin (Real.sqrt a)

/-- From `models.py`, the `Flight` dataclass: one observed aircraft.
`registration` and `vertical_speed` are `Optional` in the source. -/
structure Flight where
  flight_id : String
  callsign : String
  airline : String
  aircraft_type : String
  origin : String
  destination : String
  latitude : ℝ
  longitude : ℝ
  altitude : ℤ
  ground_speed : ℤ
  heading : ℤ
  distance_km : ℝ := 0.0
  registration : Option String := none
  vertical_speed : Option ℤ := none

/-- From `Flight.__post_init__`: replaces empty callsign, airline,
aircraft type and route fields by their sentinel defaults (the airline is
derived from the first three characters of the callsign when long
enough). -/
def Flight.post_init (f : Flight) : Flight :=
  let cs := if f.callsign = "" then "N/A" else f.callsign
  { f with
    callsign := cs
    airline := if f.airline = "" then (if cs.length ≥ 3 then cs.take 3 else "N/A") else f.airline
    aircraft_type := if f.aircraft_type = "" then "N/A" else f.aircraft_type
    origin := if f.origin = "" then "---" else f.origin
    destination := if f.destination = "" then "---" else f.destination }

/-- The configuration fields read by `DataUpdater._worker`:
`config.api.endpoint_type` (the mode, `"light"` for light-only or
`"full"` for the hybrid light+full strategy), and
`config.location.center_lat` / `config.location.center_lon` (the
monitored center).  The refresh interval and the bounding box only
parametrise the waits and the light request, which the model represents
symbolically. -/
structure Config where
  endpoint_type : String
  center_lat : ℝ
  center_lon : ℝ

/-- Outcome of the light fetch `api_client.get_live_flights_light` as the
worker's `try` block observes it: a flight list, a raised `FR24APIError`
(classified), or any other raised exception (unclassified). -/
inductive LightOutcome where
  | ok (flights : List Flight)
  | apiError (msg : String)
  | unexpected (msg : String)

/-- Outcome of the full-detail fetch `api_client.get_flight_details` as
observed by the inner `try` of the worker, which catches exactly
`FR24APIError`. -/
inductive DetailOutcome where
  | ok (flights : List Flight)
  | apiError (msg : String)

/-- A value put on `data_queue`: `("success", flights)` or
`("error", msg)`. -/
inductive PollResult where
  | success (flights : List Flight)
  | error (msg : String)

/-- Which wait ends the cycle: the normal
`_stop_event.wait(refresh_interval)`, or the 30-second backoff wait
`_stop_event.wait(30)` followed by `continue` (which skips the normal
wait). -/
inductive WaitKind where
  | refresh
  | backoff30
deriving DecidableEq, Repr

/-- The worker's mutable state across cycles: `_flight_cache`,
`_consecutive_errors`, `_update_count`. -/
structure WorkerState where
  cache : FlightCache
  consecutive_errors : ℕ
  update_count : ℕ

/-- From `DataUpdater.__init__`: `_max_consecutive_errors = 5`. -/
def max_consecutive_errors : ℕ := 5

/-- From `updater.py` step 4: merge cached details into one light flight
(each empty enrichable field is back-filled from the corresponding
non-empty cache field), then recompute `distance_km` from the configured
center via `haversine_distance`.  A Python `str` is falsy exactly when
empty; the `Optional[str]` registration is falsy when `None` or empty. -/
noncomputable def enrichFlight (cfg : Config) (cached : Option CachedFlightDetails)
    (f : Flight) : Flight :=
  let f := match cached with
    | some e =>
      let f := if f.aircraft_type = "" ∧ e.aircraft_type ≠ ""
        then { f with aircraft_type := e.aircraft_type } else f
      let f := if f.airline = "" ∧ e.airline ≠ ""
        then { f with airline := e.airline } else f
      let f := if f.origin = "" ∧ e.origin ≠ ""
        then { f with origin := e.origin } else f
      let f := if f.destination = "" ∧ e.destination ≠ ""
        then { f with destination := e.destination } else f
      let f := if (f.registration = none ∨ f.registration = some "") ∧ e.registration ≠ ""
        then { f with registration := some e.registration } else f
      f
    | none => f
  { f with distance_km :=
      haversine_distance cfg.center_lat cfg.center_lon f.latitude f.longitude }

/-- One iteration of the step-4 loop: `get` the flight's cached details
(threading the cache state) and append the enriched flight. -/
noncomputable def enrichStep (cfg : Config) (now : ℚ) (acc : List Flight × FlightCache)
    (f : Flight) : List Flight × FlightCache :=
  let r := acc.2.get now f.flight_id
  (acc.1 ++ [enrichFlight cfg r.1 f], r.2)

/-- Step 4 of the worker over the whole batch: for each flight, `get` its
cached details (threading the cache state) and enrich it. -/
noncomputable def enrichFlights (cfg : Config) (now : ℚ) (c : FlightCache)
    (flights : List Flight) : List Flight × FlightCache :=
  flights.foldl (enrichStep cfg now) ([], c)

/-- `{f.flight_id for f in flights if f.flight_id}`: the set of non-empty
identifiers in the batch, as a deduplicated list. -/
def currentFlightIds (flights : List Flight) : List String :=
  ((flights.map (·.flight_id)).filter (fun s => s != "")).dedup

/-- Everything one iteration of the `DataUpdater._worker` loop produces:
the updated worker state, the results put on `data_queue` (in order), the
wait that ends the iteration, and the callsign lists passed to
`get_flight_details` (at most one per cycle). -/
structure CycleOutput where
  state : WorkerState
  published : List PollResult
  wait : WaitKind
  detailRequests : List (List String)

/-- One iteration of the `DataUpdater._worker` loop, from `updater.py`.
`now` is the clock reading used by the cache operations of the cycle;
`light` is the outcome of the light fetch and `detailFetch` the full
detail fetch, indexed by the requested callsigns.  A classified
`FR24APIError` failing the whole cycle increments `_consecutive_errors`,
publishes one error, and once the counter reaches the threshold waits 30
seconds and `continue`s; any other exception increments the counter and
publishes a generic `"Unexpected error: ..."` message, after which the
loop falls through to the normal refresh wait. -/
noncomputable def workerCycle (cfg : Config) (now : ℚ) (light : LightOutcome)
    (detailFetch : List String → DetailOutcome) (s : WorkerState) : CycleOutput :=
  let cnt := s.update_count + 1
  match light with
  | .apiError msg =>
    let errs := s.consecutive_errors + 1
    { state := { s with consecutive_errors := errs, update_count := cnt }
      published := [.error msg]
      wait := if errs ≥ max_consecutive_errors then .backoff30 else .refresh
      detailRequests := [] }
  | .unexpected msg =>
    { state := { s with consecutive_errors := s.consecutive_errors + 1, update_count := cnt }
      published := [.error ("Unexpected error: " ++ msg)]
      wait := .refresh
      detailRequests := [] }
  | .ok flights =>
    let current_flight_ids := currentFlightIds flights
    let mr := s.cache.get_missing_ids now current_flight_ids
    let missing_ids := mr.1
    let dr :=
      if missing_ids ≠ [] ∧ cfg.endpoint_type = "full" then
        let missing_callsigns :=
          (flights.filter (fun f => missing_ids.contains f.flight_id && f.callsign != "")).map
            (·.callsign)
        if missing_callsigns ≠ [] then
          let req := missing_callsigns.take 15
          let c2 := match detailFetch req with
            | .ok detailed =>
              detailed.foldl
                (fun c df =>
                  c.put now df.flight_id df.aircraft_type df.airline df.origin
                    df.destination (df.registration.getD ""))
                mr.2
            | .apiError _ => mr.2
          (c2, [req])
        else (mr.2, ([] : List (List String)))
      else (mr.2, ([] : List (List String)))
    let er := enrichFlights cfg now dr.1 flights
    let c4 :=
      if cnt % 10 = 0 then
        (((er.2.cleanup_departed current_flight_ids).2).cleanup_expired now).2
      else er.2
    { state := { cache := c4, consecutive_errors := 0, update_count := cnt }
      published := [.success er.1]
      wait := .refresh
      detailRequests := dr.2 }

/-- Iterating `workerCycle` over a list of per-cycle inputs (the clock
reading and the light-fetch outcome of each cycle), collecting each
cycle's output. -/
noncomputable def runCycles (cfg : Config) (detailFetch : List String → DetailOutcome) :
    List (ℚ × LightOutcome) → WorkerState → List CycleOutput × WorkerState
  | [], s => ([], s)
  | (now, light) :: rest, s =>
    let o := workerCycle cfg now light detailFetch s
    let r := runCycles cfg detailFetch rest o.state
    (o :: r.1, r.2)

/-- Concrete light-only configuration (evaluation fixture). -/
def cfgLight : Config :=
  ⟨"light", 0, 0⟩

/-- Concrete hybrid light+full configuration (evaluation fixture). -/
noncomputable def cfgFull : Config :=
  ⟨"full", 51.47, -0.45⟩

/-- A detail fetch that always fails with a classified error (fixture). -/
def failingDetails : List String → DetailOutcome :=
  fun _ => .apiError "Rate limit exceeded"

/-- A fresh worker state (fixture). -/
def state0 : WorkerState :=
  ⟨⟨[], 3600, 0, 0⟩, 0, 0⟩

/-- A worker state with four consecutive failures already recorded
(fixture). -/
def state4 : WorkerState :=
  ⟨⟨[], 3600, 0, 0⟩, 4, 0⟩

/-- A cached detail entry for identifier `"fx"` (fixture). -/
def entryX : CachedFlightDetails :=
  ⟨"fx", "A320", "BAW", "LHR", "JFK", "G-AAAA", 0⟩

/-- A worker state whose cache holds `entryX` (fixture). -/
def stateX : WorkerState :=
  ⟨⟨[("fx", entryX)], 3600, 0, 0⟩, 0, 0⟩

/-- A light flight with identifier `"fx"` (fixture). -/
noncomputable def flX : Flight :=
  ⟨"fx", "BAW123", "BAW", "", "", "", 1, 2, 10000, 400, 90, 0, none, none⟩

/-- A light flight with identifier `"fy"`, not cached (fixture). -/
noncomputable def flY : Flight :=
  ⟨"fy", "RYR77", "RYR", "", "", "", 3, 4, 20000, 410, 180, 0, none, none⟩

/-- A placeholder cycle output, used as the default of list indexing. -/
def dummyCycle : CycleOutput :=
  { state := { cache := { entries := [], ttl_seconds := 3600, hits := 0, misses := 0 },
               consecutive_errors := 0, update_count := 0 }
    published := []
    wait := .refresh
    detailRequests := [] }

/-- A fresh cache with a 10-second TTL (concrete evaluation fixture). -/
def emptyCache10 : FlightCache :=
  ⟨[], 10, 0, 0⟩

/-- A concrete cache entry stored at time 0 under key `"b2"`. -/
def entryB : CachedFlightDetails :=
  ⟨"b2", "", "", "", "", "", 0⟩

/-- A concrete one-entry cache with a 10-second TTL. -/
def cacheB : FlightCache :=
  ⟨[("b2", entryB)], 10, 0, 0⟩

section Lemmas

variable {α β : Type}

/-- Filtering by a weaker predicate does not change the first match of a
stronger one. -/
theorem find?_filter_of_imp (l : List (α × β)) (p q : α × β → Bool)
    (h : ∀ x, p x = true → q x = true) :
    (l.filter q).find? p = l.find? p := by
  induction l with
  | nil => rfl
  | cons a l ih =>
    by_cases hq : q a = true
    · rw [List.filter_cons_of_pos hq]
      by_cases hp : p a = true
      · rw [List.find?_cons_of_pos _ hp, List.find?_cons_of_pos _ hp]
      · rw [List.find?_cons_of_neg _ (by simp_all), List.find?_cons_of_neg _ (by simp_all), ih]
    · rw [List.filter_cons_of_neg (by simp_all)]
      have hp : ¬ p a = true := fun hpa => hq (h a hpa)
      rw [List.find?_cons_of_neg _ (by simp_all), ih]

/-- A list splits, in length, into the part kept and the part dropped by a
filter. -/
theorem length_filter_add_length_not (l : List α) (p : α → Bool) :
    (l.filter p).length + (l.filter (fun x => !(p x))).length = l.length := by
  induction l with
  | nil => rfl
  | cons a l ih =>
    by_cases hp : p a = true <;>
      simp [List.filter_cons, hp, ← ih] <;> omega

end Lemmas

/-- C6: `cleanup_departed` removes exactly the entries whose key is absent
from the current identifier set — the count returned plus the remaining
size is the prior size, lookups of retained keys are unchanged, absent
keys are gone, and afterwards every remaining key belongs to the current
set. -/
theorem cleanup_departed_spec (c : FlightCache) (ids : List String) :
    (c.cleanup_departed ids).1 + ((c.cleanup_departed ids).2).size = c.size
    ∧ (∀ k, ((c.cleanup_departed ids).2).lookupRaw k
        = if ids.contains k then c.lookupRaw k else none)
    ∧ (∀ k, k ∈ ((c.cleanup_departed ids).2).entries.map Prod.fst → k ∈ ids) := by
  refine ⟨?_, ?_, ?_⟩
  · have := length_filter_add_length_not c.entries (fun p => ids.contains p.1)
    simp only [FlightCache.cleanup_departed, FlightCache.size]
    omega
  · intro k
    by_cases hk : ids.contains k = true
    · rw [if_pos hk]
      simp only [FlightCache.cleanup_departed, FlightCache.lookupRaw]
      rw [find?_filter_of_imp]
      intro x hx
      have : x.1 = k := by simpa using hx
      rwa [this]
    · rw [if_neg hk]
      simp only [FlightCache.cleanup_departed, FlightCache.lookupRaw, Option.map_eq_none']
      rw [List.find?_eq_none]
      intro x hx hpx
      have hx1 : x.1 = k := by simpa using hpx
      have : ids.contains x.1 = true := (List.mem_filter.mp hx).2
      rw [hx1] at this
      exact hk this
  · intro k hk
    simp only [FlightCache.cleanup_departed, List.mem_map] at hk
    obtain ⟨x, hx, hxk⟩ := hk
    have : ids.contains x.1 = true := (List.mem_filter.mp hx).2
    rw [hxk] at this
    simpa using this

/-- C10: `stats` is total — with no lookups yet the hit rate is reported
as `0` rather than dividing by zero, otherwise it is
`hits / (hits + misses) * 100` — and it reports exactly the accumulated
hit count, miss count and current size. -/
theorem stats_spec (c : FlightCache) :
    (c.hits + c.misses = 0 → (c.stats).hit_rate = 0)
    ∧ (0 < c.hits + c.misses →
        (c.stats).hit_rate = (c.hits : ℚ) / ((c.hits : ℚ) + (c.misses : ℚ)) * 100)
    ∧ (c.stats).hits = c.hits ∧ (c.stats).misses = c.misses
    ∧ (c.stats).size = c.size := by
  refine ⟨fun h => ?_, fun h => ?_, rfl, rfl, rfl⟩
  · simp [FlightCache.stats, h]
  · simp only [FlightCache.stats]
    rw [if_pos (by exact_mod_cast h)]
    push_cast
    ring

/-- Witness for C10 at concrete caches: a fresh cache reports hit rate 0,
and a cache with one hit and three misses reports 25%. -/
theorem stats_spec_witness :
    ({ entries := [], ttl_seconds := 3600, hits := 0, misses := 0 : FlightCache }.stats).hit_rate
      = 0
    ∧ ({ entries := [], ttl_seconds := 3600, hits := 1, misses := 3 : FlightCache }.stats).hit_rate
      = 25 := by
  constructor
  · exact (stats_spec _).1 (by decide)
  · have h := (stats_spec { entries := [], ttl_seconds := 3600, hits := 1, misses := 3 }).2.1
      (by decide)
    rw [h]
    norm_num

/-- Dropping the (unique, by key-nodup) entry found for a key shortens the
list by exactly one. -/
theorem filter_ne_length_of_find {β : Type} (l : List (String × β)) (k : String)
    (e : String × β) (hnd : (l.map Prod.fst).Nodup)
    (hf : l.find? (fun p => p.1 == k) = some e) :
    (l.filter (fun p => p.1 != k)).length + 1 = l.length := by
  induction l with
  | nil => simp at hf
  | cons a l ih =>
    rw [List.map_cons, List.nodup_cons] at hnd
    by_cases ha : (a.1 == k) = true
    · have hak : a.1 = k := by simpa using ha
      have hfil : l.filter (fun p => p.1 != k) = l := by
        apply List.filter_eq_self.mpr
        intro x hx
        have hne : x.1 ≠ a.1 := by
          intro hxe
          exact hnd.1 (hxe ▸ List.mem_map_of_mem Prod.fst hx)
        simpa [hak] using fun hxx => hne (by rw [hxx, hak])
      rw [List.filter_cons_of_neg (by simpa using ha), hfil]
      simp
    · have hf' : l.find? (fun p => p.1 == k) = some e := by
        simpa [List.find?_cons, ha] using hf
      rw [List.filter_cons_of_pos (by simpa using ha), List.length_cons, List.length_cons,
        ih hnd.2 hf']

/-- C5: with a positive TTL, `get` immediately after `put` returns exactly
the entry just stored, leaving the entries untouched; `get` of an entry
whose age strictly exceeds the TTL returns absent, removes the entry
(size decreases by one), and counts the lookup as a miss. -/
theorem cache_put_get_expiry :
    (∀ (c : FlightCache) (now : ℚ) (fid a al o d r : String), 0 < c.ttl_seconds →
      ((c.put now fid a al o d r).get now fid).1
          = some { flight_id := fid, aircraft_type := a, airline := al, origin := o,
                   destination := d, registration := r, cached_at := now }
        ∧ ((c.put now fid a al o d r).get now fid).2.entries
          = (c.put now fid a al o d r).entries)
    ∧ (∀ (c : FlightCache) (now : ℚ) (fid : String) (e : CachedFlightDetails),
        c.lookupRaw fid = some e → c.ttl_seconds < now - e.cached_at →
        (c.get now fid).1 = none
          ∧ ((c.entries.map Prod.fst).Nodup → (c.get now fid).2.size + 1 = c.size)
          ∧ (c.get now fid).2.misses = c.misses + 1
          ∧ (c.get now fid).2.hits = c.hits
          ∧ ((c.get now fid).2).lookupRaw fid = none) := by
  constructor
  · intro c now fid a al o d r httl
    have hni : ¬ (c.ttl_seconds < 0) := by linarith
    simp [FlightCache.put, FlightCache.get, FlightCache.lookupRaw,
      CachedFlightDetails.is_expired, hni]
  · intro c now fid e hlk hage
    have hexp : e.is_expired c.ttl_seconds now = true := by
      simp only [CachedFlightDetails.is_expired, decide_eq_true_eq]
      linarith
    simp only [FlightCache.lookupRaw, Option.map_eq_some'] at hlk
    obtain ⟨pr, hpr, hpe⟩ := hlk
    refine ⟨?_, ?_, ?_, ?_, ?_⟩
    · simp [FlightCache.get, FlightCache.lookupRaw, hpr, hpe, hexp]
    · intro hnd
      simp only [FlightCache.get, FlightCache.lookupRaw, hpr, Option.map_some', hpe, hexp,
        if_pos, FlightCache.size]
      exact filter_ne_length_of_find c.entries fid pr hnd hpr
    · simp [FlightCache.get, FlightCache.lookupRaw, hpr, hpe, hexp]
    · simp [FlightCache.get, FlightCache.lookupRaw, hpr, hpe, hexp]
    · simp only [FlightCache.get, FlightCache.lookupRaw, hpr, Option.map_some', hpe, hexp,
        if_pos]
      simp only [Option.map_eq_none']
      rw [List.find?_eq_none]
      intro x hx hpx
      have := (List.mem_filter.mp hx).2
      simp only [bne_iff_ne, ne_eq, decide_eq_true_eq] at this
      exact this (by simpa using hpx)

/-- Witness for C5 at a concrete cache with TTL 10: a put-then-get at time
0 returns the stored entry, and a get at time 11 of an entry stored at
time 0 returns absent with the size dropping from 1 to 0 and a miss
counted. -/
theorem cache_put_get_expiry_witness :
    ((emptyCache10.put 0 "a1" "A320" "BAW" "LHR" "JFK" "G-ABCD").get 0 "a1").1
      = some ⟨"a1", "A320", "BAW", "LHR", "JFK", "G-ABCD", 0⟩
    ∧ (cacheB.get 11 "b2").1 = none
    ∧ (cacheB.get 11 "b2").2.size + 1 = 1
    ∧ (cacheB.get 11 "b2").2.misses = 1 := by
  have hA := (cache_put_get_expiry.1 emptyCache10 0
    "a1" "A320" "BAW" "LHR" "JFK" "G-ABCD" (by norm_num [emptyCache10])).1
  have hB := cache_put_get_expiry.2 cacheB 11 "b2" entryB
    (by decide) (by norm_num [cacheB, entryB])
  exact ⟨hA, hB.1, by rw [hB.2.1 (by decide)]; decide, by rw [hB.2.2.1]; decide⟩

/-- `get` never changes the TTL configuration. -/
theorem get_ttl (c : FlightCache) (now : ℚ) (fid : String) :
    ((c.get now fid).2).ttl_seconds = c.ttl_seconds := by
  simp only [FlightCache.get]
  cases hc : c.lookupRaw fid with
  | none => rfl
  | some e =>
    by_cases h : e.is_expired c.ttl_seconds now = true <;> simp [h]

/-- `get` of one id leaves the raw lookup of every other id unchanged
(it deletes, at most, its own entry). -/
theorem get_lookupRaw_other (c : FlightCache) (now : ℚ) (fid fid' : String)
    (h : fid' ≠ fid) :
    ((c.get now fid).2).lookupRaw fid' = c.lookupRaw fid' := by
  simp only [FlightCache.get]
  cases hc : c.lookupRaw fid with
  | none => rfl
  | some e =>
    by_cases hx : e.is_expired c.ttl_seconds now = true
    · simp only [hx, if_pos]
      simp only [FlightCache.lookupRaw]
      rw [find?_filter_of_imp]
      intro x hxp
      have : x.1 = fid' := by simpa using hxp
      simp [this, h]
    · simp [hx, FlightCache.lookupRaw]

/-- The value returned by `get` depends only on the raw lookup of the id
and the TTL. -/
theorem get_result_congr (c₁ c₂ : FlightCache) (now : ℚ) (fid : String)
    (hl : c₁.lookupRaw fid = c₂.lookupRaw fid) (ht : c₁.ttl_seconds = c₂.ttl_seconds) :
    (c₁.get now fid).1 = (c₂.get now fid).1 := by
  simp only [FlightCache.get, hl, ht]
  cases c₂.lookupRaw fid with
  | none => rfl
  | some e =>
    by_cases hx : e.is_expired c₂.ttl_seconds now = true <;> simp [hx]

/-- Each `get` adds one hit when it reports an entry and one miss when it
reports absent. -/
theorem get_stats_delta (c : FlightCache) (now : ℚ) (fid : String) :
    (c.get now fid).2.hits = c.hits + (if ((c.get now fid).1).isSome then 1 else 0)
    ∧ (c.get now fid).2.misses = c.misses + (if ((c.get now fid).1).isNone then 1 else 0) := by
  cases hc : c.lookupRaw fid with
  | none => simp [FlightCache.get, hc]
  | some e =>
    by_cases hx : e.is_expired c.ttl_seconds now = true <;> simp [FlightCache.get, hc, hx]

/-- The `get_missing_ids` loop, unrolled against the initial cache state:
starting from an accumulator and a state that agrees with `c` on the
still-unprocessed ids, it appends exactly the ids whose plain `get` on `c`
is absent, and bumps the statistics by one hit or miss per id
accordingly. -/
theorem missing_loop_spec (now : ℚ) (c : FlightCache) (l : List String) :
    ∀ (acc0 : List String) (c0 : FlightCache),
      c0.ttl_seconds = c.ttl_seconds →
      (∀ fid ∈ l, c0.lookupRaw fid = c.lookupRaw fid) →
      l.Nodup →
      (l.foldl (FlightCache.missingStep now) (acc0, c0)).1
          = acc0 ++ l.filter (fun fid => ((c.get now fid).1).isNone)
        ∧ (l.foldl (FlightCache.missingStep now) (acc0, c0)).2.hits
          = c0.hits + l.countP (fun fid => ((c.get now fid).1).isSome)
        ∧ (l.foldl (FlightCache.missingStep now) (acc0, c0)).2.misses
          = c0.misses + l.countP (fun fid => ((c.get now fid).1).isNone) := by
  induction l with
  | nil => intro acc0 c0 _ _ _; simp
  | cons x xs ih =>
    intro acc0 c0 httl hlk hnd
    have hx : (c0.get now x).1 = (c.get now x).1 :=
      get_result_congr c0 c now x (hlk x (by simp)) httl
    have hdelta := get_stats_delta c0 now x
    have httl' : ((c0.get now x).2).ttl_seconds = c.ttl_seconds := by
      rw [get_ttl]; exact httl
    have hlk' : ∀ fid ∈ xs, ((c0.get now x).2).lookupRaw fid = c.lookupRaw fid := by
      intro fid hfid
      have hne : fid ≠ x := by
        rintro rfl
        exact (List.nodup_cons.mp hnd).1 hfid
      rw [get_lookupRaw_other c0 now x fid hne]
      exact hlk fid (by simp [hfid])
    have hnd' : xs.Nodup := (List.nodup_cons.mp hnd).2
    rw [List.foldl_cons]
    cases hres : (c0.get now x).1 with
    | none =>
      have hcres : (c.get now x).1 = none := by rw [← hx]; exact hres
      have hstep : FlightCache.missingStep now (acc0, c0) x = (acc0 ++ [x], (c0.get now x).2) := by
        simp [FlightCache.missingStep, hres]
      rw [hstep]
      obtain ⟨h1, h2, h3⟩ := ih (acc0 ++ [x]) ((c0.get now x).2) httl' hlk' hnd'
      refine ⟨?_, ?_, ?_⟩
      · rw [h1, List.filter_cons_of_pos (by simp [hcres]), List.append_assoc]
        rfl
      · rw [h2, hdelta.1, List.countP_cons, hres, hcres]
        simp
      · rw [h3, hdelta.2, List.countP_cons, hres, hcres]
        simp
        omega
    | some e =>
      have hcres : (c.get now x).1 = some e := by rw [← hx]; exact hres
      have hstep : FlightCache.missingStep now (acc0, c0) x = (acc0, (c0.get now x).2) := by
        simp [FlightCache.missingStep, hres]
      rw [hstep]
      obtain ⟨h1, h2, h3⟩ := ih acc0 ((c0.get now x).2) httl' hlk' hnd'
      refine ⟨?_, ?_, ?_⟩
      · rw [h1, List.filter_cons_of_neg (by simp [hcres])]
      · rw [h2, hdelta.1, List.countP_cons, hres, hcres]
        simp
        omega
      · rw [h3, hdelta.2, List.countP_cons, hres, hcres]
        simp

/-- C7: `get_missing_ids` returns exactly the candidates for which `get`
reports absent, and — being defined in terms of `get` — each of its
lookups counts one hit or one miss exactly as a plain `get` of the same id
on the incoming state would. -/
theorem get_missing_ids_spec (c : FlightCache) (now : ℚ) (l : List String)
    (hnd : l.Nodup) :
    (c.get_missing_ids now l).1 = l.filter (fun fid => ((c.get now fid).1).isNone)
    ∧ (∀ fid, fid ∈ (c.get_missing_ids now l).1 ↔ fid ∈ l ∧ (c.get now fid).1 = none)
    ∧ (c.get_missing_ids now l).2.hits
      = c.hits + l.countP (fun fid => ((c.get now fid).1).isSome)
    ∧ (c.get_missing_ids now l).2.misses
      = c.misses + l.countP (fun fid => ((c.get now fid).1).isNone) := by
  obtain ⟨h1, h2, h3⟩ :=
    missing_loop_spec now c l [] c rfl (fun _ _ => rfl) hnd
  simp only [FlightCache.get_missing_ids]
  refine ⟨by simpa using h1, ?_, h2, h3⟩
  intro fid
  rw [show (l.foldl (FlightCache.missingStep now) ([], c)).1
      = l.filter (fun fid => ((c.get now fid).1).isNone) from by simpa using h1]
  simp [List.mem_filter, Option.isNone_iff_eq_none]

/-- Witness for C7: with only `"a1"` put, `get_missing_ids` over
`[a1, b2, c3]` returns exactly `[b2, c3]`, counting one hit and two
misses. -/
theorem get_missing_ids_spec_witness :
    ((emptyCache10.put 0 "a1" "" "" "" "" "").get_missing_ids 0 ["a1", "b2", "c3"]).1
      = ["b2", "c3"]
    ∧ ((emptyCache10.put 0 "a1" "" "" "" "" "").get_missing_ids 0 ["a1", "b2", "c3"]).2.hits = 1
    ∧ ((emptyCache10.put 0 "a1" "" "" "" "" "").get_missing_ids 0 ["a1", "b2", "c3"]).2.misses
      = 2 := by
  obtain ⟨h1, _, h3, h4⟩ :=
    get_missing_ids_spec (emptyCache10.put 0 "a1" "" "" "" "" "") 0 ["a1", "b2", "c3"]
      (by decide)
  have hq : ¬ ((10:ℚ) < 0) := by norm_num
  refine ⟨?_, ?_, ?_⟩
  · rw [h1]
    simp [List.filter, FlightCache.put, FlightCache.get, FlightCache.lookupRaw,
      CachedFlightDetails.is_expired, emptyCache10, hq]
  · rw [h3]
    simp [List.countP, List.countP.go, FlightCache.put, FlightCache.get,
      FlightCache.lookupRaw, CachedFlightDetails.is_expired, emptyCache10, hq]
  · rw [h4]
    simp [List.countP, List.countP.go, FlightCache.put, FlightCache.get,
      FlightCache.lookupRaw, CachedFlightDetails.is_expired, emptyCache10, hq]

/-- `atan2` of a nonnegative ordinate and nonnegative abscissa is
nonnegative (first-quadrant angle). -/
theorem atan2_nonneg (y x : ℝ) (hy : 0 ≤ y) (hx : 0 ≤ x) : 0 ≤ atan2 y x := by
  unfold atan2
  by_cases hx0 : 0 < x
  · rw [if_pos hx0]
    have : Real.arctan 0 ≤ Real.arctan (y / x) :=
      Real.arctan_strictMono.monotone (by positivity)
    simpa using this
  · have hxe : x = 0 := le_antisymm (not_lt.mp hx0) hx
    rw [if_neg hx0]
    rw [if_neg (by simp [hxe]), if_neg (by simp [hxe])]
    by_cases hy0 : 0 < y
    · rw [if_pos ⟨hxe, hy0⟩]
      positivity
    · rw [if_neg (fun h => hy0 h.2)]
      rw [if_neg (fun h => (not_lt.mpr hy) h.2)]

/-- Half-to-even rounding of a nonnegative real is nonnegative. -/
theorem roundHalfEven_nonneg (x : ℝ) (hx : 0 ≤ x) : 0 ≤ roundHalfEven x := by
  unfold roundHalfEven
  have hfl : (0 : ℤ) ≤ ⌊x⌋ := Int.floor_nonneg.mpr hx
  by_cases hf : Int.fract x = 1 / 2
  · rw [if_pos hf]
    by_cases he : ⌊x⌋ % 2 = 0
    · rw [if_pos he]; exact hfl
    · rw [if_neg he]; omega
  · rw [if_neg hf, round_eq]
    exact Int.floor_nonneg.mpr (by linarith)

/-- Half-to-even rounding moves a value by at most one half. -/
theorem abs_roundHalfEven_sub (x : ℝ) : |(roundHalfEven x : ℝ) - x| ≤ 1 / 2 := by
  unfold roundHalfEven
  by_cases hf : Int.fract x = 1 / 2
  · have hfl : x - ⌊x⌋ = 1 / 2 := by
      rw [Int.self_sub_floor, hf]
    by_cases he : ⌊x⌋ % 2 = 0
    · rw [if_pos hf, if_pos he]
      rw [abs_le]
      constructor <;> linarith
    · rw [if_pos hf, if_neg he]
      push_cast
      rw [abs_le]
      constructor <;> linarith
  · rw [if_neg hf, abs_sub_comm]
    exact abs_sub_round x

/-- `round1` of a nonnegative value is nonnegative. -/
theorem round1_nonneg (x : ℝ) (hx : 0 ≤ x) : 0 ≤ round1 x := by
  unfold round1
  have : (0 : ℤ) ≤ roundHalfEven (x * 10) := roundHalfEven_nonneg _ (by linarith)
  have h10 : (0 : ℝ) ≤ (roundHalfEven (x * 10) : ℝ) := by exact_mod_cast this
  linarith

/-- `round1` fixes zero. -/
theorem round1_zero : round1 0 = 0 := by
  unfold round1 roundHalfEven
  norm_num

/-- Rounding to one decimal moves a value by at most 1/20 (so certainly by
less than 0.1). -/
theorem abs_round1_sub (x : ℝ) : |round1 x - x| ≤ 1 / 20 := by
  unfold round1
  have h := abs_roundHalfEven_sub (x * 10)
  have h2 : |(roundHalfEven (x * 10) : ℝ) / 10 - x| = |(roundHalfEven (x * 10) : ℝ) - x * 10| / 10 := by
    rw [show (roundHalfEven (x * 10) : ℝ) / 10 - x = ((roundHalfEven (x * 10) : ℝ) - x * 10) / 10 by ring]
    rw [abs_div]
    norm_num
  rw [h2]
  linarith

/-- On `a ∈ [0, 1]`, the code's `atan2 (√a) (√(1-a))` form of the central
angle agrees with the textbook `arcsin (√a)` form. -/
theorem atan2_sqrt_eq_arcsin (a : ℝ) (h0 : 0 ≤ a) (h1 : a ≤ 1) :
    atan2 (Real.sqrt a) (Real.sqrt (1 - a)) = Real.arcsin (Real.sqrt a) := by
  rcases lt_or_eq_of_le h1 with hlt | heq
  · have hx : 0 < Real.sqrt (1 - a) := Real.sqrt_pos.mpr (by linarith)
    unfold atan2
    rw [if_pos hx]
    have hmem : Real.sqrt a ∈ Set.Ioo (-(1 : ℝ)) 1 := by
      constructor
      · have := Real.sqrt_nonneg a
        linarith
      · rw [Real.sqrt_lt' one_pos]
        linarith
    rw [Real.arcsin_eq_arctan hmem, Real.sq_sqrt h0]
  · subst heq
    unfold atan2
    norm_num

/-- For latitudes within ±90°, the haversine intermediate `a` lies in
`[0, 1]`. -/
theorem hav_a_mem (lat1 lat2 dlon2 : ℝ)
    (h1l : -90 ≤ lat1) (h1u : lat1 ≤ 90) (h2l : -90 ≤ lat2) (h2u : lat2 ≤ 90) :
    0 ≤ Real.sin ((radians lat2 - radians lat1) / 2) ^ 2 +
        Real.cos (radians lat1) * Real.cos (radians lat2) * Real.sin dlon2 ^ 2
    ∧ Real.sin ((radians lat2 - radians lat1) / 2) ^ 2 +
        Real.cos (radians lat1) * Real.cos (radians lat2) * Real.sin dlon2 ^ 2 ≤ 1 := by
  have hpi : (0 : ℝ) < Real.pi := Real.pi_pos
  have hc : ∀ lat : ℝ, -90 ≤ lat → lat ≤ 90 → 0 ≤ Real.cos (radians lat) := by
    intro lat hl hu
    apply Real.cos_nonneg_of_mem_Icc
    have hlo : (-90 : ℝ) * Real.pi ≤ lat * Real.pi := mul_le_mul_of_nonneg_right hl hpi.le
    have hhi : lat * Real.pi ≤ 90 * Real.pi := mul_le_mul_of_nonneg_right hu hpi.le
    constructor
    · unfold radians
      linarith
    · unfold radians
      linarith
  have hc1 := hc lat1 h1l h1u
  have hc2 := hc lat2 h2l h2u
  have hP : 0 ≤ Real.cos (radians lat1) * Real.cos (radians lat2) := mul_nonneg hc1 hc2
  have ht : Real.sin dlon2 ^ 2 ≤ 1 := Real.sin_sq_le_one dlon2
  have ht0 : 0 ≤ Real.sin dlon2 ^ 2 := sq_nonneg _
  constructor
  · have := sq_nonneg (Real.sin ((radians lat2 - radians lat1) / 2))
    nlinarith
  · have hPt : Real.cos (radians lat1) * Real.cos (radians lat2) * Real.sin dlon2 ^ 2
        ≤ Real.cos (radians lat1) * Real.cos (radians lat2) := by
      calc Real.cos (radians lat1) * Real.cos (radians lat2) * Real.sin dlon2 ^ 2
          ≤ Real.cos (radians lat1) * Real.cos (radians lat2) * 1 :=
            mul_le_mul_of_nonneg_left ht hP
        _ = Real.cos (radians lat1) * Real.cos (radians lat2) := mul_one _
    have hs : Real.sin ((radians lat2 - radians lat1) / 2) ^ 2
        = 1 / 2 - Real.cos (radians lat2 - radians lat1) / 2 := by
      rw [Real.sin_sq_eq_half_sub, mul_div_cancel₀ _ (two_ne_zero)]
    have hcc : Real.cos (radians lat2 - radians lat1) + Real.cos (radians lat2 + radians lat1)
        = 2 * (Real.cos (radians lat1) * Real.cos (radians lat2)) := by
      rw [Real.cos_sub, Real.cos_add]
      ring
    have hone : Real.cos (radians lat2 + radians lat1) ≤ 1 := Real.cos_le_one _
    linarith

/-- C9: `haversine_distance` computes the haversine great-circle distance
(Earth radius 6371.0 km, degrees converted to radians) rounded to one
decimal place — on valid latitudes it equals the rounded reference
haversine and lies within 0.1 km of the unrounded reference — and it is
non-negative, symmetric under swapping the two points, and zero for
identical coordinates. -/
theorem haversine_spec :
    (∀ lat1 lon1 lat2 lon2 : ℝ,
        -90 ≤ lat1 → lat1 ≤ 90 → -90 ≤ lat2 → lat2 ≤ 90 →
        haversine_distance lat1 lon1 lat2 lon2
            = round1 (referenceHaversine lat1 lon1 lat2 lon2)
          ∧ |haversine_distance lat1 lon1 lat2 lon2
              - referenceHaversine lat1 lon1 lat2 lon2| ≤ 0.1)
    ∧ (∀ lat1 lon1 lat2 lon2 : ℝ, 0 ≤ haversine_distance lat1 lon1 lat2 lon2)
    ∧ (∀ lat1 lon1 lat2 lon2 : ℝ,
        haversine_distance lat1 lon1 lat2 lon2 = haversine_distance lat2 lon2 lat1 lon1)
    ∧ (∀ x y : ℝ, haversine_distance x y x y = 0) := by
  refine ⟨?_, ?_, ?_, ?_⟩
  · intro lat1 lon1 lat2 lon2 h1l h1u h2l h2u
    obtain ⟨ha0, ha1⟩ :=
      hav_a_mem lat1 lat2 ((radians lon2 - radians lon1) / 2) h1l h1u h2l h2u
    have heq : haversine_distance lat1 lon1 lat2 lon2
        = round1 (referenceHaversine lat1 lon1 lat2 lon2) := by
      simp only [haversine_distance, referenceHaversine]
      rw [atan2_sqrt_eq_arcsin _ ha0 ha1]
      congr 1
      ring
    refine ⟨heq, ?_⟩
    rw [heq]
    have := abs_round1_sub (referenceHaversine lat1 lon1 lat2 lon2)
    have h01 : (1 : ℝ) / 20 ≤ 0.1 := by norm_num
    linarith
  · intro lat1 lon1 lat2 lon2
    simp only [haversine_distance]
    apply round1_nonneg
    have h := atan2_nonneg
      (Real.sqrt (Real.sin ((radians lat2 - radians lat1) / 2) ^ 2 +
        Real.cos (radians lat1) * Real.cos (radians lat2) *
          Real.sin ((radians lon2 - radians lon1) / 2) ^ 2))
      (Real.sqrt (1 - (Real.sin ((radians lat2 - radians lat1) / 2) ^ 2 +
        Real.cos (radians lat1) * Real.cos (radians lat2) *
          Real.sin ((radians lon2 - radians lon1) / 2) ^ 2)))
      (Real.sqrt_nonneg _) (Real.sqrt_nonneg _)
    linarith
  · intro lat1 lon1 lat2 lon2
    have hsin : ∀ u v : ℝ, Real.sin ((u - v) / 2) ^ 2 = Real.sin ((v - u) / 2) ^ 2 := by
      intro u v
      rw [show (u - v) / 2 = -((v - u) / 2) by ring, Real.sin_neg, neg_sq]
    have ha : Real.sin ((radians lat2 - radians lat1) / 2) ^ 2 +
          Real.cos (radians lat1) * Real.cos (radians lat2) *
            Real.sin ((radians lon2 - radians lon1) / 2) ^ 2
        = Real.sin ((radians lat1 - radians lat2) / 2) ^ 2 +
          Real.cos (radians lat2) * Real.cos (radians lat1) *
            Real.sin ((radians lon1 - radians lon2) / 2) ^ 2 := by
      rw [hsin (radians lat2) (radians lat1), hsin (radians lon2) (radians lon1)]
      ring
    simp only [haversine_distance]
    rw [ha]
  · intro x y
    have h0 : atan2 0 1 = 0 := by
      norm_num [atan2]
    simp [haversine_distance, sub_self, Real.sin_zero, Real.sqrt_zero, Real.sqrt_one, h0,
      round1_zero]

/-- Witness for C9 at concrete coordinates. -/
theorem haversine_spec_witness :
    haversine_distance 0 0 0 0 = round1 (referenceHaversine 0 0 0 0)
    ∧ 0 ≤ haversine_distance 10 20 30 40
    ∧ haversine_distance 10 20 30 40 = haversine_distance 30 40 10 20
    ∧ haversine_distance 51.47 0 51.47 0 = 0 :=
  ⟨(haversine_spec.1 0 0 0 0 (by norm_num) (by norm_num) (by norm_num) (by norm_num)).1,
   haversine_spec.2.1 10 20 30 40,
   haversine_spec.2.2.1 10 20 30 40,
   haversine_spec.2.2.2 51.47 0⟩

/-- C2 counterexample: from four prior consecutive failures, an
unclassified failure brings the counter to the threshold (5) yet the cycle
ends in the normal refresh wait, while a classified failure from the same
state enters the 30-second backoff — the two are not treated identically
at the threshold. -/
theorem unclassified_backoff_counterexample :
    (workerCycle cfgLight 0 (.unexpected "boom") failingDetails state4).state.consecutive_errors
      = max_consecutive_errors
    ∧ (workerCycle cfgLight 0 (.unexpected "boom") failingDetails state4).wait = .refresh
    ∧ (workerCycle cfgLight 0 (.apiError "boom") failingDetails state4).wait = .backoff30
    ∧ WaitKind.refresh ≠ WaitKind.backoff30 :=
  ⟨rfl, rfl, rfl, by decide⟩

/-- C2 (amended): an unclassified failure increments the
consecutive-failure counter, publishes exactly one Failure carrying the
generic `"Unexpected error: ..."` message, and does not terminate the
loop; however it always ends the cycle with the normal refresh wait — the
30-second backoff wait is only entered from a classified-failure cycle,
even when the unclassified failure brings the counter to the threshold. -/
theorem unclassified_failure_cycle (cfg : Config) (now : ℚ) (msg : String)
    (detailFetch : List String → DetailOutcome) (s : WorkerState) :
    (workerCycle cfg now (.unexpected msg) detailFetch s).published
        = [.error ("Unexpected error: " ++ msg)]
    ∧ (workerCycle cfg now (.unexpected msg) detailFetch s).state.consecutive_errors
        = s.consecutive_errors + 1
    ∧ (workerCycle cfg now (.unexpected msg) detailFetch s).wait = .refresh :=
  ⟨rfl, rfl, rfl⟩

/-- Enrichment never changes a flight's identifier. -/
theorem enrichFlight_flight_id (cfg : Config) (r : Option CachedFlightDetails) (f : Flight) :
    (enrichFlight cfg r f).flight_id = f.flight_id := by
  cases r with
  | none => rfl
  | some e =>
    simp only [enrichFlight]
    split_ifs <;> rfl

/-- The published distance field is always the fresh haversine computation
from the configured center to the flight's position, whatever value the
provider supplied and whatever is cached. -/
theorem enrichFlight_distance (cfg : Config) (r : Option CachedFlightDetails) (f : Flight) :
    (enrichFlight cfg r f).distance_km
      = haversine_distance cfg.center_lat cfg.center_lon f.latitude f.longitude := by
  cases r with
  | none => rfl
  | some e =>
    simp only [enrichFlight]
    split_ifs <;> rfl

/-- An empty aircraft type is back-filled from a non-empty cached one. -/
theorem enrichFlight_aircraft (cfg : Config) (e : CachedFlightDetails) (f : Flight)
    (h1 : f.aircraft_type = "") (h2 : e.aircraft_type ≠ "") :
    (enrichFlight cfg (some e) f).aircraft_type = e.aircraft_type := by
  simp only [enrichFlight]
  split_ifs <;> first | rfl | simp_all

/-- An empty airline is back-filled from a non-empty cached one. -/
theorem enrichFlight_airline (cfg : Config) (e : CachedFlightDetails) (f : Flight)
    (h1 : f.airline = "") (h2 : e.airline ≠ "") :
    (enrichFlight cfg (some e) f).airline = e.airline := by
  simp only [enrichFlight]
  split_ifs with ha hb <;> simp_all

/-- An empty origin is back-filled from a non-empty cached one. -/
theorem enrichFlight_origin (cfg : Config) (e : CachedFlightDetails) (f : Flight)
    (h1 : f.origin = "") (h2 : e.origin ≠ "") :
    (enrichFlight cfg (some e) f).origin = e.origin := by
  simp only [enrichFlight]
  split_ifs <;> simp_all

/-- An empty destination is back-filled from a non-empty cached one. -/
theorem enrichFlight_destination (cfg : Config) (e : CachedFlightDetails) (f : Flight)
    (h1 : f.destination = "") (h2 : e.destination ≠ "") :
    (enrichFlight cfg (some e) f).destination = e.destination := by
  simp only [enrichFlight]
  split_ifs <;> simp_all

/-- A missing or empty registration is back-filled from a non-empty cached
one. -/
theorem enrichFlight_registration (cfg : Config) (e : CachedFlightDetails) (f : Flight)
    (h1 : f.registration = none ∨ f.registration = some "") (h2 : e.registration ≠ "") :
    (enrichFlight cfg (some e) f).registration = some e.registration := by
  simp only [enrichFlight]
  split_ifs <;> simp_all

/-- The step-4 loop preserves the identifiers of the batch, in order. -/
theorem enrich_loop_ids (cfg : Config) (now : ℚ) (fl : List Flight) :
    ∀ (acc : List Flight) (c : FlightCache),
      ((fl.foldl (enrichStep cfg now) (acc, c)).1).map (fun f => f.flight_id)
        = acc.map (fun f => f.flight_id) ++ fl.map (fun f => f.flight_id) := by
  induction fl with
  | nil => intro acc c; simp
  | cons f fl ih =>
    intro acc c
    rw [List.foldl_cons]
    have hstep : enrichStep cfg now (acc, c) f
        = (acc ++ [enrichFlight cfg ((c.get now f.flight_id).1) f],
           (c.get now f.flight_id).2) := rfl
    rw [hstep, ih]
    simp [enrichFlight_flight_id]

/-- C8: when the light fetch succeeds and every full-detail fetch fails
with a classified error, the failure is absorbed — the cycle publishes one
Success whose flights are the light batch (same identifiers, enriched only
from the pre-existing cache, no entries from the failed fetch), the
consecutive-failure counter ends at zero, and no Failure is published. -/
theorem detail_failure_absorbed (cfg : Config) (now : ℚ) (flights : List Flight)
    (detailFetch : List String → DetailOutcome) (s : WorkerState) (emsg : String)
    (hdf : ∀ req, detailFetch req = .apiError emsg) :
    (workerCycle cfg now (.ok flights) detailFetch s).published
        = [.success ((enrichFlights cfg now
            (s.cache.get_missing_ids now (currentFlightIds flights)).2 flights).1)]
    ∧ ((enrichFlights cfg now
          (s.cache.get_missing_ids now (currentFlightIds flights)).2 flights).1).map
            (fun f => f.flight_id)
        = flights.map (fun f => f.flight_id)
    ∧ (workerCycle cfg now (.ok flights) detailFetch s).state.consecutive_errors = 0
    ∧ (∀ m, PollResult.error m ∉ (workerCycle cfg now (.ok flights) detailFetch s).published) := by
  have hpub : (workerCycle cfg now (.ok flights) detailFetch s).published
      = [.success ((enrichFlights cfg now
          (s.cache.get_missing_ids now (currentFlightIds flights)).2 flights).1)] := by
    simp only [workerCycle]
    split_ifs <;> simp [hdf]
  refine ⟨hpub, ?_, rfl, ?_⟩
  · have := enrich_loop_ids cfg now flights []
      ((s.cache.get_missing_ids now (currentFlightIds flights)).2)
    simpa [enrichFlights] using this
  · intro m hm
    rw [hpub] at hm
    simp at hm

/-- Witness for C8: a concrete hybrid-mode cycle whose (attempted) detail
fetch fails still publishes one Success and resets the failure counter. -/
theorem detail_failure_absorbed_witness :
    (workerCycle cfgFull 0 (.ok [flY]) failingDetails state0).published
        = [.success ((enrichFlights cfgFull 0
            (state0.cache.get_missing_ids 0 (currentFlightIds [flY])).2 [flY]).1)]
    ∧ (workerCycle cfgFull 0 (.ok [flY]) failingDetails state0).state.consecutive_errors = 0 :=
  have h := detail_failure_absorbed cfgFull 0 [flY] failingDetails state0
    "Rate limit exceeded" (fun _ => rfl)
  ⟨h.1, h.2.2.1⟩

/-- C1: in a cycle whose light fetch returns one flight with an empty
aircraft type while the cache holds an unexpired entry for its identifier
with aircraft type `"A320"`, the published record is that flight enriched:
its aircraft type is `"A320"`, every other empty enrichable field is
back-filled from the cache entry when the cached field is non-empty, and
its distance field is the fresh haversine computation from the configured
center to the flight's position — never a carried-over value. -/
theorem cycle_enrichment_spec (cfg : Config) (now : ℚ) (f : Flight)
    (e : CachedFlightDetails) (detailFetch : List String → DetailOutcome) (s : WorkerState)
    (hid : f.flight_id ≠ "")
    (hlk : s.cache.lookupRaw f.flight_id = some e)
    (hexp : e.is_expired s.cache.ttl_seconds now = false)
    (hat : e.aircraft_type = "A320")
    (hfat : f.aircraft_type = "") :
    (workerCycle cfg now (.ok [f]) detailFetch s).published
        = [.success [enrichFlight cfg (some e) f]]
    ∧ (enrichFlight cfg (some e) f).aircraft_type = "A320"
    ∧ (enrichFlight cfg (some e) f).distance_km
        = haversine_distance cfg.center_lat cfg.center_lon f.latitude f.longitude
    ∧ (f.airline = "" → e.airline ≠ "" →
        (enrichFlight cfg (some e) f).airline = e.airline)
    ∧ (f.origin = "" → e.origin ≠ "" →
        (enrichFlight cfg (some e) f).origin = e.origin)
    ∧ (f.destination = "" → e.destination ≠ "" →
        (enrichFlight cfg (some e) f).destination = e.destination)
    ∧ ((f.registration = none ∨ f.registration = some "") → e.registration ≠ "" →
        (enrichFlight cfg (some e) f).registration = some e.registration) := by
  have hbne : (f.flight_id != "") = true := by simpa using hid
  have hcur : currentFlightIds [f] = [f.flight_id] := by
    simp [currentFlightIds, List.filter, hbne]
  have hmr : s.cache.get_missing_ids now [f.flight_id]
      = ([], { s.cache with hits := s.cache.hits + 1 }) := by
    simp [FlightCache.get_missing_ids, FlightCache.missingStep, FlightCache.get, hlk, hexp]
  have hlk1 : ({ s.cache with hits := s.cache.hits + 1 } : FlightCache).lookupRaw f.flight_id
      = some e := hlk
  have her : enrichFlights cfg now ({ s.cache with hits := s.cache.hits + 1 }) [f]
      = ([enrichFlight cfg (some e) f],
         { s.cache with hits := s.cache.hits + 1 + 1 }) := by
    simp [enrichFlights, enrichStep, FlightCache.get, hlk1, hexp]
  refine ⟨?_, ?_, enrichFlight_distance cfg (some e) f, ?_, ?_, ?_, ?_⟩
  · simp only [workerCycle, hcur, hmr]
    simp [her]
  · rw [enrichFlight_aircraft cfg e f hfat (by rw [hat]; decide), hat]
  · intro h1 h2
    exact enrichFlight_airline cfg e f h1 h2
  · intro h1 h2
    exact enrichFlight_origin cfg e f h1 h2
  · intro h1 h2
    exact enrichFlight_destination cfg e f h1 h2
  · intro h1 h2
    exact enrichFlight_registration cfg e f h1 h2

/-- Witness for C1: a concrete cycle whose light fetch returns one flight
with identifier `"fx"` and empty aircraft type, against a cache holding an
unexpired `"A320"` entry for `"fx"`. -/
theorem cycle_enrichment_spec_witness :
    (workerCycle cfgLight 0 (.ok [flX]) failingDetails stateX).published
        = [.success [enrichFlight cfgLight (some entryX) flX]]
    ∧ (enrichFlight cfgLight (some entryX) flX).aircraft_type = "A320"
    ∧ (enrichFlight cfgLight (some entryX) flX).distance_km
        = haversine_distance cfgLight.center_lat cfgLight.center_lon
            flX.latitude flX.longitude := by
  have h := cycle_enrichment_spec cfgLight 0 flX entryX failingDetails stateX
    (by simp [flX]) rfl
    (by norm_num [CachedFlightDetails.is_expired, entryX, stateX]) rfl rfl
  exact ⟨h.1, h.2.1, h.2.2.1⟩

/-- C4: in `"full"` (light+full) mode, a cycle whose light batch holds a
cached identifier and an uncached one issues exactly one full-detail
request containing only the uncached flight's callsign; and in every
cycle at most one full-detail request is issued, carrying at most 15
callsigns (the missing-callsign list is truncated, not split into a
second call). -/
theorem hybrid_detail_request_spec (cfg : Config) (now : ℚ) (fx fy : Flight)
    (e : CachedFlightDetails) (detailFetch : List String → DetailOutcome) (s : WorkerState)
    (hmode : cfg.endpoint_type = "full")
    (hxid : fx.flight_id ≠ "") (hyid : fy.flight_id ≠ "")
    (hxy : fx.flight_id ≠ fy.flight_id)
    (hlkx : s.cache.lookupRaw fx.flight_id = some e)
    (hexp : e.is_expired s.cache.ttl_seconds now = false)
    (hlky : s.cache.lookupRaw fy.flight_id = none)
    (hycs : fy.callsign ≠ "") :
    (workerCycle cfg now (.ok [fx, fy]) detailFetch s).detailRequests = [[fy.callsign]]
    ∧ (∀ (cfg' : Config) (now' : ℚ) (light : LightOutcome)
        (df : List String → DetailOutcome) (s' : WorkerState),
        (workerCycle cfg' now' light df s').detailRequests.length ≤ 1
        ∧ ∀ r ∈ (workerCycle cfg' now' light df s').detailRequests, r.length ≤ 15) := by
  constructor
  · have hbx : (fx.flight_id != "") = true := by simpa using hxid
    have hby : (fy.flight_id != "") = true := by simpa using hyid
    have hcur : currentFlightIds [fx, fy] = [fx.flight_id, fy.flight_id] := by
      simp [currentFlightIds, List.filter, hbx, hby, List.dedup_cons_of_not_mem, hxy]
    have hlky1 : ({ s.cache with hits := s.cache.hits + 1 } : FlightCache).lookupRaw fy.flight_id
        = none := hlky
    have hmr : s.cache.get_missing_ids now [fx.flight_id, fy.flight_id]
        = ([fy.flight_id],
           { s.cache with
               hits := s.cache.hits + 1
               misses := s.cache.misses + 1 }) := by
      simp [FlightCache.get_missing_ids, FlightCache.missingStep, FlightCache.get,
        hlkx, hexp, hlky1]
    have hbxy : (fy.flight_id == fx.flight_id) = false := by
      simpa using (Ne.symm hxy)
    have hbxy' : (fx.flight_id == fy.flight_id) = false := by
      simpa using hxy
    have hbyy : (fy.flight_id == fy.flight_id) = true := by simp
    have hbcs : (fy.callsign != "") = true := by simpa using hycs
    simp only [workerCycle, hcur, hmr]
    simp [hmode, List.filter, List.contains, List.elem, List.any, hbxy, hbxy', hbyy, hbcs,
      List.take]
  · intro cfg' now' light df s'
    cases light with
    | apiError msg => exact ⟨by simp [workerCycle], by simp [workerCycle]⟩
    | unexpected msg => exact ⟨by simp [workerCycle], by simp [workerCycle]⟩
    | ok flights =>
      constructor
      · simp only [workerCycle]
        split_ifs <;> simp
      · intro r hr
        simp only [workerCycle] at hr
        split_ifs at hr
        · simp at hr
          subst hr
          simp [List.length_take]
        · simp at hr
        · simp at hr

/-- Witness for C4: a concrete `"full"`-mode cycle with cached `"fx"` and
uncached `"fy"` issues exactly the one request `[["RYR77"]]`. -/
theorem hybrid_detail_request_spec_witness :
    (workerCycle cfgFull 0 (.ok [flX, flY]) failingDetails stateX).detailRequests
      = [[flY.callsign]]
    ∧ (workerCycle cfgLight 0 (.ok []) failingDetails state0).detailRequests.length ≤ 1 := by
  have h := hybrid_detail_request_spec cfgFull 0 flX flY entryX failingDetails stateX
    rfl (by simp [flX]) (by simp [flY]) (by simp [flX, flY]) rfl
    (by norm_num [CachedFlightDetails.is_expired, entryX, stateX]) rfl (by simp [flY])
  exact ⟨h.1, (h.2 cfgLight 0 (.ok []) failingDetails state0).1⟩

/-- A run whose every cycle fails with a classified error, unrolled from
an arbitrary failure count: cycle `i` publishes exactly the one Failure of
that cycle, and ends in the 30-second backoff exactly when the counter has
reached the threshold. -/
theorem runCycles_allFail (cfg : Config) (df : List String → DetailOutcome) :
    ∀ (msgs : List String) (s : WorkerState) (i : ℕ), i < msgs.length →
      ((runCycles cfg df (msgs.map (fun m => ((0 : ℚ), LightOutcome.apiError m))) s).1.getD
          i dummyCycle).published
        = [.error (msgs.getD i "")]
      ∧ ((runCycles cfg df (msgs.map (fun m => ((0 : ℚ), LightOutcome.apiError m))) s).1.getD
          i dummyCycle).wait
        = (if max_consecutive_errors ≤ s.consecutive_errors + i + 1
            then WaitKind.backoff30 else WaitKind.refresh) := by
  intro msgs
  induction msgs with
  | nil =>
    intro s i hi
    simp at hi
  | cons m ms ih =>
    intro s i hi
    cases i with
    | zero =>
      constructor
      · simp [runCycles, workerCycle]
      · simp [runCycles, workerCycle, max_consecutive_errors]
    | succ j =>
      have hj : j < ms.length := by simpa using hi
      have hih := ih (workerCycle cfg 0 (.apiError m) df s).state j hj
      have hce : (workerCycle cfg 0 (.apiError m) df s).state.consecutive_errors
          = s.consecutive_errors + 1 := rfl
      rw [hce] at hih
      have harith : s.consecutive_errors + 1 + j + 1 = s.consecutive_errors + (j + 1) + 1 := by
        omega
      rw [harith] at hih
      refine ⟨?_, ?_⟩
      · simpa [runCycles] using hih.1
      · simpa [runCycles] using hih.2

/-- C3: starting from a zero failure counter, a run whose every
whole-cycle fetch fails publishes exactly one Failure per cycle and ends
cycle `i` in the 30-second backoff wait exactly when it is the 5th or
later consecutive failure (`5 ≤ i + 1`), waiting the normal refresh
interval before that; and any successful cycle resets the counter to zero
and ends in the normal refresh wait. -/
theorem poller_backoff_spec (cfg : Config) (df : List String → DetailOutcome)
    (msgs : List String) (s : WorkerState) (h0 : s.consecutive_errors = 0) :
    (∀ i, i < msgs.length →
      ((runCycles cfg df (msgs.map (fun m => ((0 : ℚ), LightOutcome.apiError m))) s).1.getD
          i dummyCycle).published
        = [.error (msgs.getD i "")]
      ∧ (((runCycles cfg df (msgs.map (fun m => ((0 : ℚ), LightOutcome.apiError m))) s).1.getD
          i dummyCycle).wait = WaitKind.backoff30 ↔ 5 ≤ i + 1))
    ∧ (∀ (now : ℚ) (flights : List Flight) (s' : WorkerState),
        (workerCycle cfg now (.ok flights) df s').state.consecutive_errors = 0
        ∧ (workerCycle cfg now (.ok flights) df s').wait = WaitKind.refresh) := by
  constructor
  · intro i hi
    obtain ⟨hpub, hwait⟩ := runCycles_allFail cfg df msgs s i hi
    rw [h0] at hwait
    refine ⟨hpub, ?_⟩
    rw [hwait]
    by_cases h5 : 5 ≤ i + 1
    · rw [if_pos (by simpa [max_consecutive_errors] using h5)]
      simp [h5]
    · rw [if_neg (by simpa [max_consecutive_errors] using h5)]
      simp [h5]
  · intro now flights s'
    exact ⟨rfl, rfl⟩

/-- Witness for C3 over six concrete failing cycles: the first cycle
publishes its Failure, cycle 4 (the 4th failure) still ends in the normal
refresh wait, cycle 5 enters the backoff, and a concrete successful cycle
resets the counter. -/
theorem poller_backoff_spec_witness :
    ((runCycles cfgLight failingDetails
        (["e1", "e2", "e3", "e4", "e5", "e6"].map
          (fun m => ((0 : ℚ), LightOutcome.apiError m))) state0).1.getD 0 dummyCycle).published
      = [.error "e1"]
    ∧ ((runCycles cfgLight failingDetails
        (["e1", "e2", "e3", "e4", "e5", "e6"].map
          (fun m => ((0 : ℚ), LightOutcome.apiError m))) state0).1.getD 3 dummyCycle).wait
      ≠ WaitKind.backoff30
    ∧ ((runCycles cfgLight failingDetails
        (["e1", "e2", "e3", "e4", "e5", "e6"].map
          (fun m => ((0 : ℚ), LightOutcome.apiError m))) state0).1.getD 4 dummyCycle).wait
      = WaitKind.backoff30
    ∧ (workerCycle cfgLight 0 (.ok []) failingDetails state4).state.consecutive_errors = 0 := by
  have h := poller_backoff_spec cfgLight failingDetails ["e1", "e2", "e3", "e4", "e5", "e6"]
    state0 rfl
  refine ⟨(h.1 0 (by norm_num)).1, ?_, ?_, (h.2 0 [] state4).1⟩
  · intro heq
    have := (h.1 3 (by norm_num)).2.mp heq
    norm_num at this
  · exact (h.1 4 (by norm_num)).2.mpr (by norm_num)

end FlightDisplay
